import Mathlib

/-!
Verification development for the `xtb-client` Rust crate (client-side runtime
of the XTB trading wire protocol).  The Rust sources are shallowly embedded:
pure functions become Lean functions, stateful code becomes explicit state
passing, external effects (the WebSocket sink, the broadcast receiver, the
JSON text parser) become explicit inputs/outputs.  JSON numbers are modelled
as integers; none of the verified properties inspects numeric payloads.
Rust byte-length checks on strings are modelled by character counts: every
code path below behaves identically under both measures (non-ASCII input is
rejected by a later digit test on every path where the two measures differ).
-/

namespace Xtb

/-- Model of `serde_json::Value`.  An `obj` is an association list standing for
the underlying key-unique map produced by the JSON parser; lookups take the
first binding. -/
inductive JValue where
  | null : JValue
  | bool (b : Bool) : JValue
  | num (n : Int) : JValue
  | str (s : String) : JValue
  | arr (items : List JValue) : JValue
  | obj (fields : List (String × JValue)) : JValue
deriving Repr

mutual

/-- Structural equality of JSON values (model of `PartialEq` on
`serde_json::Value`), as a decision procedure. -/
def JValue.decEq : (a b : JValue) → Decidable (a = b)
  | .null, .null => .isTrue rfl
  | .null, .bool _ => .isFalse (fun h => JValue.noConfusion h)
  | .null, .num _ => .isFalse (fun h => JValue.noConfusion h)
  | .null, .str _ => .isFalse (fun h => JValue.noConfusion h)
  | .null, .arr _ => .isFalse (fun h => JValue.noConfusion h)
  | .null, .obj _ => .isFalse (fun h => JValue.noConfusion h)
  | .bool _, .null => .isFalse (fun h => JValue.noConfusion h)
  | .bool a, .bool b =>
    if h : a = b then .isTrue (h ▸ rfl)
    else .isFalse (fun hh => h (JValue.bool.inj hh))
  | .bool _, .num _ => .isFalse (fun h => JValue.noConfusion h)
  | .bool _, .str _ => .isFalse (fun h => JValue.noConfusion h)
  | .bool _, .arr _ => .isFalse (fun h => JValue.noConfusion h)
  | .bool _, .obj _ => .isFalse (fun h => JValue.noConfusion h)
  | .num _, .null => .isFalse (fun h => JValue.noConfusion h)
  | .num _, .bool _ => .isFalse (fun h => JValue.noConfusion h)
  | .num a, .num b =>
    if h : a = b then .isTrue (h ▸ rfl)
    else .isFalse (fun hh => h (JValue.num.inj hh))
  | .num _, .str _ => .isFalse (fun h => JValue.noConfusion h)
  | .num _, .arr _ => .isFalse (fun h => JValue.noConfusion h)
  | .num _, .obj _ => .isFalse (fun h => JValue.noConfusion h)
  | .str _, .null => .isFalse (fun h => JValue.noConfusion h)
  | .str _, .bool _ => .isFalse (fun h => JValue.noConfusion h)
  | .str _, .num _ => .isFalse (fun h => JValue.noConfusion h)
  | .str a, .str b =>
    if h : a = b then .isTrue (h ▸ rfl)
    else .isFalse (fun hh => h (JValue.str.inj hh))
  | .str _, .arr _ => .isFalse (fun h => JValue.noConfusion h)
  | .str _, .obj _ => .isFalse (fun h => JValue.noConfusion h)
  | .arr _, .null => .isFalse (fun h => JValue.noConfusion h)
  | .arr _, .bool _ => .isFalse (fun h => JValue.noConfusion h)
  | .arr _, .num _ => .isFalse (fun h => JValue.noConfusion h)
  | .arr _, .str _ => .isFalse (fun h => JValue.noConfusion h)
  | .arr a, .arr b =>
    match JValue.decEqList a b with
    | .isTrue h => .isTrue (h ▸ rfl)
    | .isFalse h => .isFalse (fun hh => h (JValue.arr.inj hh))
  | .arr _, .obj _ => .isFalse (fun h => JValue.noConfusion h)
  | .obj _, .null => .isFalse (fun h => JValue.noConfusion h)
  | .obj _, .bool _ => .isFalse (fun h => JValue.noConfusion h)
  | .obj _, .num _ => .isFalse (fun h => JValue.noConfusion h)
  | .obj _, .str _ => .isFalse (fun h => JValue.noConfusion h)
  | .obj _, .arr _ => .isFalse (fun h => JValue.noConfusion h)
  | .obj a, .obj b =>
    match JValue.decEqFields a b with
    | .isTrue h => .isTrue (h ▸ rfl)
    | .isFalse h => .isFalse (fun hh => h (JValue.obj.inj hh))

/-- Decidable equality of JSON value lists. -/
def JValue.decEqList : (a b : List JValue) → Decidable (a = b)
  | [], [] => .isTrue rfl
  | [], _ :: _ => .isFalse (fun h => List.noConfusion h)
  | _ :: _, [] => .isFalse (fun h => List.noConfusion h)
  | x :: xs, y :: ys =>
    match JValue.decEq x y with
    | .isTrue h₁ =>
      match JValue.decEqList xs ys with
      | .isTrue h₂ => .isTrue (h₁ ▸ h₂ ▸ rfl)
      | .isFalse h₂ => .isFalse (fun hh => h₂ (List.cons.inj hh).2)
    | .isFalse h₁ => .isFalse (fun hh => h₁ (List.cons.inj hh).1)

/-- Decidable equality of JSON object field lists. -/
def JValue.decEqFields : (a b : List (String × JValue)) → Decidable (a = b)
  | [], [] => .isTrue rfl
  | [], _ :: _ => .isFalse (fun h => List.noConfusion h)
  | _ :: _, [] => .isFalse (fun h => List.noConfusion h)
  | (k₁, v₁) :: xs, (k₂, v₂) :: ys =>
    if hk : k₁ = k₂ then
      match JValue.decEq v₁ v₂ with
      | .isTrue hv =>
        match JValue.decEqFields xs ys with
        | .isTrue ht => .isTrue (hk ▸ hv ▸ ht ▸ rfl)
        | .isFalse ht => .isFalse (fun hh => ht (List.cons.inj hh).2)
      | .isFalse hv =>
        .isFalse (fun hh => hv (congrArg Prod.snd (List.cons.inj hh).1))
    else
      .isFalse (fun hh => hk (congrArg Prod.fst (List.cons.inj hh).1))

end

instance : DecidableEq JValue := JValue.decEq

/-- Lookup of a key in a JSON object (model of `serde_json::Map::get`). -/
def objGet (fields : List (String × JValue)) (key : String) : Option JValue :=
  match fields with
  | [] => none
  | (k, v) :: rest => if k = key then some v else objGet rest key

/-- Model of `XtbErrorCode` (src/client/src/api/api_errors.rs).  The payloads
of `OtherError` (`u8` in Rust) and `InternalServerError` (`u16`) are carried
as naturals; the range facts are stated in the theorems. -/
inductive XtbErrorCode where
  | BE001 | BE002 | BE003 | BE004 | BE005 | BE006 | BE007 | BE008 | BE009
  | BE010 | BE011 | BE012 | BE013 | BE014 | BE016 | BE017 | BE018 | BE019
  | BE094 | BE095 | BE096 | BE097 | BE098
  | BE101 | BE102 | BE103 | BE104 | BE105 | BE106
  | BE110 | BE115 | BE116 | BE117 | BE118 | BE200
  | EX000 | EX001 | EX002 | BE000 | EX003 | EX004 | EX005 | EX006 | EX007
  | EX008 | EX009 | EX010 | EX011
  | OtherError (c : Nat)
  | InternalServerError (c : Nat)
deriving DecidableEq, Repr

/-- Model of `XtbErrorCodeError`. -/
inductive XtbErrorCodeError where
  | UnsupportedErrorCode (s : String)
deriving DecidableEq, Repr

/-- Character-list implementation of Rust `str::starts_with` (equivalent to
`String.startsWith`, stated this way so that proofs can evaluate it). -/
def strStartsWith (s pre : String) : Bool :=
  pre.toList.isPrefixOf s.toList

/-- Model of Rust `u8::from_str` / `u16::from_str` on a character list:
an optional leading plus sign followed by at least one decimal digit,
rejecting values above `max` (overflow). -/
def parseUIntChars (cs : List Char) (max : Nat) : Option Nat :=
  let t := match cs with
    | '+' :: rest => rest
    | _ => cs
  if t = [] then none
  else if t.all Char.isDigit then
    let n := t.foldl (fun a c => a * 10 + (c.toNat - 48)) 0
    if n ≤ max then some n else none
  else none

/-- Model of `parse_other_error` (api_errors.rs): accepts `BE0dd`-shaped
strings and returns `OtherError` with the numeric suffix. -/
def parse_other_error (s : String) : Except XtbErrorCodeError XtbErrorCode :=
  if ¬ (strStartsWith s "BE0") ∨ s.length ≠ 5 then
    .error (.UnsupportedErrorCode s)
  else
    match parseUIntChars (s.toList.drop 3) 255 with
    | some c => .ok (.OtherError c)
    | none => .error (.UnsupportedErrorCode s)

/-- Model of `parse_se_error` (api_errors.rs): accepts `SEddd`-shaped strings
and returns `InternalServerError` with the numeric suffix. -/
def parse_se_error (s : String) : Except XtbErrorCodeError XtbErrorCode :=
  if ¬ (strStartsWith s "SE") ∨ s.length ≠ 5 then
    .error (.UnsupportedErrorCode s)
  else
    match parseUIntChars (s.toList.drop 2) 65535 with
    | some c => .ok (.InternalServerError c)
    | none => .error (.UnsupportedErrorCode s)

/-- Model of `XtbErrorCode::from_str` (api_errors.rs): the match over the
fixed code literals, then the `BE020`..`BE037`/`BE099` alternation routed to
`parse_other_error`, then any `SE`-prefixed string routed to `parse_se_error`,
and `UnsupportedErrorCode` otherwise. -/
def XtbErrorCode.from_str (s : String) : Except XtbErrorCodeError XtbErrorCode :=
  if s = "BE001" then .ok .BE001
  else if s = "BE002" then .ok .BE002
  else if s = "BE003" then .ok .BE003
  else if s = "BE004" then .ok .BE004
  else if s = "BE005" then .ok .BE005
  else if s = "BE006" then .ok .BE006
  else if s = "BE007" then .ok .BE007
  else if s = "BE008" then .ok .BE008
  else if s = "BE009" then .ok .BE009
  else if s = "BE010" then .ok .BE010
  else if s = "BE011" then .ok .BE011
  else if s = "BE012" then .ok .BE012
  else if s = "BE013" then .ok .BE013
  else if s = "BE014" then .ok .BE014
  else if s = "BE016" then .ok .BE016
  else if s = "BE017" then .ok .BE017
  else if s = "BE018" then .ok .BE018
  else if s = "BE019" then .ok .BE019
  else if s = "BE094" then .ok .BE094
  else if s = "BE095" then .ok .BE095
  else if s = "BE096" then .ok .BE096
  else if s = "BE097" then .ok .BE097
  else if s = "BE098" then .ok .BE098
  else if s = "BE101" then .ok .BE101
  else if s = "BE102" then .ok .BE102
  else if s = "BE103" then .ok .BE103
  else if s = "BE104" then .ok .BE104
  else if s = "BE105" then .ok .BE105
  else if s = "BE106" then .ok .BE106
  else if s = "BE110" then .ok .BE110
  else if s = "BE115" then .ok .BE115
  else if s = "BE116" then .ok .BE116
  else if s = "BE117" then .ok .BE117
  else if s = "BE118" then .ok .BE118
  else if s = "BE200" then .ok .BE200
  else if s = "EX000" then .ok .EX000
  else if s = "EX001" then .ok .EX001
  else if s = "EX002" then .ok .EX002
  else if s = "BE000" then .ok .BE000
  else if s = "EX003" then .ok .EX003
  else if s = "EX004" then .ok .EX004
  else if s = "EX005" then .ok .EX005
  else if s = "EX006" then .ok .EX006
  else if s = "EX007" then .ok .EX007
  else if s = "EX008" then .ok .EX008
  else if s = "EX009" then .ok .EX009
  else if s = "EX010" then .ok .EX010
  else if s = "EX011" then .ok .EX011
  else if s = "BE020" ∨ s = "BE021" ∨ s = "BE022" ∨ s = "BE023" ∨ s = "BE024" ∨
          s = "BE025" ∨ s = "BE026" ∨ s = "BE027" ∨ s = "BE028" ∨ s = "BE029" ∨
          s = "BE030" ∨ s = "BE031" ∨ s = "BE032" ∨ s = "BE033" ∨ s = "BE034" ∨
          s = "BE035" ∨ s = "BE036" ∨ s = "BE037" ∨ s = "BE099" then
    parse_other_error s
  else if strStartsWith s "SE" then
    parse_se_error s
  else .error (.UnsupportedErrorCode s)

/-- Model of Rust format specifier `{:03}`: decimal rendering zero-padded to
at least three digits. -/
def pad3 (n : Nat) : String :=
  (if n < 10 then "00" else if n < 100 then "0" else "") ++ toString n

/-- Model of `impl fmt::Display for XtbErrorCode` (api_errors.rs). -/
def XtbErrorCode.display : XtbErrorCode → String
  | .BE001 => "BE001" | .BE002 => "BE002" | .BE003 => "BE003" | .BE004 => "BE004"
  | .BE005 => "BE005" | .BE006 => "BE006" | .BE007 => "BE007" | .BE008 => "BE008"
  | .BE009 => "BE009" | .BE010 => "BE010" | .BE011 => "BE011" | .BE012 => "BE012"
  | .BE013 => "BE013" | .BE014 => "BE014" | .BE016 => "BE016" | .BE017 => "BE017"
  | .BE018 => "BE018" | .BE019 => "BE019" | .BE094 => "BE094" | .BE095 => "BE095"
  | .BE096 => "BE096" | .BE097 => "BE097" | .BE098 => "BE098" | .BE101 => "BE101"
  | .BE102 => "BE102" | .BE103 => "BE103" | .BE104 => "BE104" | .BE105 => "BE105"
  | .BE106 => "BE106" | .BE110 => "BE110" | .BE115 => "BE115" | .BE116 => "BE116"
  | .BE117 => "BE117" | .BE118 => "BE118" | .BE200 => "BE200" | .EX000 => "EX000"
  | .EX001 => "EX001" | .EX002 => "EX002" | .BE000 => "BE000" | .EX003 => "EX003"
  | .EX004 => "EX004" | .EX005 => "EX005" | .EX006 => "EX006" | .EX007 => "EX007"
  | .EX008 => "EX008" | .EX009 => "EX009" | .EX010 => "EX010" | .EX011 => "EX011"
  | .OtherError c => "BE" ++ pad3 c
  | .InternalServerError c => "SE" ++ pad3 c

/-- The 48 fixed (payload-free) error-code variants, in source order. -/
def fixedErrorCodes : List XtbErrorCode :=
  [.BE001, .BE002, .BE003, .BE004, .BE005, .BE006, .BE007, .BE008, .BE009,
   .BE010, .BE011, .BE012, .BE013, .BE014, .BE016, .BE017, .BE018, .BE019,
   .BE094, .BE095, .BE096, .BE097, .BE098, .BE101, .BE102, .BE103, .BE104,
   .BE105, .BE106, .BE110, .BE115, .BE116, .BE117, .BE118, .BE200,
   .EX000, .EX001, .EX002, .BE000, .EX003, .EX004, .EX005, .EX006, .EX007,
   .EX008, .EX009, .EX010, .EX011]

/-! ## Wire messages (src/client/src/api/messages.rs) -/

/-- Model of `Response` (success envelope of the command channel). -/
structure Response where
  status : Bool
  stream_session_id : Option String
  return_data : Option JValue
  custom_tag : Option String
deriving DecidableEq, Repr

/-- Model of `ErrorResponse` (failure envelope of the command channel). -/
structure ErrorResponse where
  status : Bool
  error_code : XtbErrorCode
  error_descr : Option String
  custom_tag : Option String
deriving DecidableEq, Repr

/-- serde semantics of an `Option<String>` struct field under
`rename_all = "camelCase"`: absent or `null` gives `none`; a JSON string gives
`some`; any other JSON type is a deserialization error (outer `none`). -/
def serdeOptString (fields : List (String × JValue)) (key : String) :
    Option (Option String) :=
  match objGet fields key with
  | none => some none
  | some .null => some none
  | some (.str s) => some (some s)
  | some _ => none

/-- serde semantics of an `Option<Value>` struct field: absent or `null` gives
`none`; any other JSON value is kept. -/
def serdeOptValue (fields : List (String × JValue)) (key : String) :
    Option (Option JValue) :=
  match objGet fields key with
  | none => some none
  | some .null => some none
  | some v => some (some v)

/-- serde semantics of `from_value::<Response>`: requires a JSON object with a
boolean `status`; the remaining fields are optional with the types above.
Unknown fields are ignored (serde default). -/
def deserializeResponse (v : JValue) : Option Response :=
  match v with
  | .obj fields =>
    match objGet fields "status" with
    | some (.bool b) =>
      match serdeOptString fields "streamSessionId",
            serdeOptValue fields "returnData",
            serdeOptString fields "customTag" with
      | some ssid, some rd, some tag => some ⟨b, ssid, rd, tag⟩
      | _, _, _ => none
    | _ => none
  | _ => none

/-- serde semantics of `from_value::<ErrorResponse>`: requires a boolean
`status` and a required `errorCode` string that parses through
`XtbErrorCode::from_str` (the enum derives `DeserializeFromStr`); `errorDescr`
and `customTag` are optional strings. -/
def deserializeErrorResponse (v : JValue) : Option ErrorResponse :=
  match v with
  | .obj fields =>
    match objGet fields "status" with
    | some (.bool b) =>
      match objGet fields "errorCode" with
      | some (.str ec) =>
        match XtbErrorCode.from_str ec with
        | .ok code =>
          match serdeOptString fields "errorDescr",
                serdeOptString fields "customTag" with
          | some descr, some tag => some ⟨b, code, descr, tag⟩
          | _, _ => none
        | .error _ => none
      | _ => none
    | _ => none
  | _ => none

/-! ## Incoming WebSocket frames

A tungstenite frame is modelled by the outcome of the two external boundary
calls the client makes on it: `Message::to_text` (text extraction) and
`serde_json::from_str` (JSON parsing).  `text (some v)` is a text frame whose
content parses to the value `v`, `text none` is a text frame that is not valid
JSON, and `nonText` is a frame on which `to_text` fails. -/
inductive Frame where
  | text (parsed : Option JValue)
  | nonText
deriving DecidableEq, Repr

/-! ## Message classification (src/client/src/message_processing.rs) -/

/-- Model of `MessageProcessingError`.  The `serde_json::Error` and
`tungstenite::Error` payloads are not representable and are dropped; message
strings keep the source wording without the quote characters. -/
inductive MessageProcessingError where
  | DeserializationError
  | MalformedResponse (s : String)
  | ReceivedInvalidData
deriving DecidableEq, Repr

/-- Model of `ProcessedMessage`. -/
inductive ProcessedMessage where
  | Response (r : Response)
  | ErrorResponse (e : ErrorResponse)
deriving DecidableEq, Repr

/-- Model of `process_message_value` (message_processing.rs): reads the
boolean `status` field first, then deserializes into the success or failure
envelope. -/
def process_message_value (value : JValue) :
    Except MessageProcessingError ProcessedMessage :=
  match value with
  | .obj fields =>
    match objGet fields "status" with
    | some (.bool status) =>
      if status then
        match deserializeResponse value with
        | some r => .ok (.Response r)
        | none => .error .DeserializationError
      else
        match deserializeErrorResponse value with
        | some e => .ok (.ErrorResponse e)
        | none => .error .DeserializationError
    | some _ => .error (.MalformedResponse "The response status field is not boolean")
    | none => .error (.MalformedResponse "The response status field is missing")
  | _ => .error (.MalformedResponse "Value is not object")

/-- Model of `process_message` (message_processing.rs). -/
def process_message : Frame → Except MessageProcessingError ProcessedMessage
  | .nonText => .error .ReceivedInvalidData
  | .text none => .error .DeserializationError
  | .text (some v) => process_message_value v

/-! ## Command connection (src/client/src/connection.rs) -/

/-- Model of `XtbConnectionError` (connection.rs); unrepresentable error
payloads are dropped. -/
inductive XtbConnectionError where
  | CannotConnect (host : String)
  | SerializationError
  | DeserializationError
  | CannotSendRequest
  | ReceiveError
  | ReceivedInvalidData
  | OperationFailed (e : ErrorResponse)
  | MalformedResponse (s : String)
deriving DecidableEq, Repr

namespace Connection

/-- Model of the private `process_message_value` of connection.rs (same
classification as message_processing.rs, but a failure envelope is surfaced as
the `OperationFailed` error). -/
def process_message_value (value : JValue) : Except XtbConnectionError Response :=
  match value with
  | .obj fields =>
    match objGet fields "status" with
    | some (.bool status) =>
      if status then
        match deserializeResponse value with
        | some r => .ok r
        | none => .error .DeserializationError
      else
        match deserializeErrorResponse value with
        | some e => .error (.OperationFailed e)
        | none => .error .DeserializationError
    | some _ => .error (.MalformedResponse "The response status field is not boolean")
    | none => .error (.MalformedResponse "The response status field is missing")
  | _ => .error (.MalformedResponse "Value is not object")

/-- Model of the private `process_message` of connection.rs.  Its input is the
`Result` delivered by the socket stream; a receive error maps to
`ReceiveError`. -/
def process_message : Except Unit Frame → Except XtbConnectionError Response
  | .error _ => .error .ReceiveError
  | .ok .nonText => .error .ReceivedInvalidData
  | .ok (.text none) => .error .DeserializationError
  | .ok (.text (some v)) => process_message_value v

end Connection

/-- Generic association-table lookup (model of `HashMap::get`). -/
def assocGet {α : Type} (t : List (String × α)) (k : String) : Option α :=
  match t with
  | [] => none
  | (k₀, v₀) :: rest => if k₀ = k then some v₀ else assocGet rest k

/-- Generic association-table insert-or-replace (model of `HashMap::insert`). -/
def assocInsert {α : Type} (t : List (String × α)) (k : String) (v : α) :
    List (String × α) :=
  match t with
  | [] => [(k, v)]
  | (k₀, v₀) :: rest =>
    if k₀ = k then (k, v) :: rest else (k₀, v₀) :: assocInsert rest k v

/-- Generic association-table removal (model of `HashMap::remove`). -/
def assocRemove {α : Type} (t : List (String × α)) (k : String) :
    List (String × α) :=
  match t with
  | [] => []
  | (k₀, v₀) :: rest =>
    if k₀ = k then rest else (k₀, v₀) :: assocRemove rest k

/-- Model of `TagMaker`: a counter starting at 0; `next` pre-increments and
formats `"message_<n>"`. -/
structure TagMaker where
  counter : Nat
deriving DecidableEq, Repr

/-- Model of `TagMaker::next`. -/
def TagMaker.next (t : TagMaker) : String × TagMaker :=
  ("message_" ++ toString (t.counter + 1), ⟨t.counter + 1⟩)

instance {ε α : Type} [DecidableEq ε] [DecidableEq α] : DecidableEq (Except ε α)
  | .ok a, .ok b =>
    if h : a = b then .isTrue (h ▸ rfl)
    else .isFalse (fun hh => h (Except.ok.inj hh))
  | .ok _, .error _ => .isFalse (fun h => Except.noConfusion h)
  | .error _, .ok _ => .isFalse (fun h => Except.noConfusion h)
  | .error a, .error b =>
    if h : a = b then .isTrue (h ▸ rfl)
    else .isFalse (fun hh => h (Except.error.inj hh))

/-- Result eventually delivered into a response promise cell
(`Result<Response, XtbConnectionError>`). -/
abbrev PromiseResult := Except XtbConnectionError Response

/-- Model of `BasicXtbConnection`: the tag maker, the correlation table
`promise_state_by_tag` (tag to cell index), and the heap of promise cells
shared through `Arc` with the callers (a cell holds
`ResponsePromiseState.response`; the waker is a scheduling detail that the
model omits). -/
structure BasicXtbConnection where
  tag_maker : TagMaker
  promise_state_by_tag : List (String × Nat)
  cells : List (Option PromiseResult)
deriving DecidableEq, Repr

/-- Outcome of the two fallible external steps inside `send_command`:
request serialization and the transport write. -/
inductive SendOutcome where
  | serializeFail
  | writeFail
  | writeOk
deriving DecidableEq, Repr

/-- Model of `BasicXtbConnection::send_command` (connection.rs lines 156-166):
generate the tag, serialize (failure returns `SerializationError` before the
table is touched), create the promise cell, insert it into
`promise_state_by_tag`, then write to the sink (failure returns
`CannotSendRequest` after the insertion, which is not rolled back).  Returns
the call result (the index of the promise cell on success) and the new
connection state. -/
def send_command (conn : BasicXtbConnection) (outcome : SendOutcome) :
    Except XtbConnectionError Nat × BasicXtbConnection :=
  let (tag, tm) := conn.tag_maker.next
  match outcome with
  | .serializeFail =>
    (.error .SerializationError, { conn with tag_maker := tm })
  | .writeFail =>
    let idx := conn.cells.length
    (.error .CannotSendRequest,
     { tag_maker := tm,
       promise_state_by_tag := assocInsert conn.promise_state_by_tag tag idx,
       cells := conn.cells ++ [none] })
  | .writeOk =>
    let idx := conn.cells.length
    (.ok idx,
     { tag_maker := tm,
       promise_state_by_tag := assocInsert conn.promise_state_by_tag tag idx,
       cells := conn.cells ++ [none] })

/-- Model of `ResponsePromiseState::set_response` on the cell heap. -/
def set_response (cells : List (Option PromiseResult)) (idx : Nat)
    (r : PromiseResult) : List (Option PromiseResult) :=
  cells.set idx (some r)

/-- One iteration of the `run_listener` reader loop (connection.rs lines
90-120): classify the frame; a non-`OperationFailed` error is logged and
skipped; a missing tag is logged and skipped; otherwise the entry is removed
from the table and the result is delivered into its cell; an unregistered tag
is discarded. -/
def run_listener_step (conn : BasicXtbConnection) (msg : Except Unit Frame) :
    BasicXtbConnection :=
  let response : Option (Except ErrorResponse Response) :=
    match Connection.process_message msg with
    | .ok resp => some (.ok resp)
    | .error (.OperationFailed e) => some (.error e)
    | .error _ => none
  match response with
  | none => conn
  | some resp =>
    let maybe_tag := match resp with
      | .ok r => r.custom_tag
      | .error r => r.custom_tag
    match maybe_tag with
    | none => conn
    | some tag =>
      match assocGet conn.promise_state_by_tag tag with
      | none => conn
      | some idx =>
        { conn with
          promise_state_by_tag := assocRemove conn.promise_state_by_tag tag,
          cells := set_response conn.cells idx
            (resp.mapError (fun e => XtbConnectionError.OperationFailed e)) }

/-- The reader loop over a finite trace of incoming frames. -/
def run_listener (conn : BasicXtbConnection) (msgs : List (Except Unit Frame)) :
    BasicXtbConnection :=
  msgs.foldl run_listener_step conn

/-- Model of `std::task::Poll`. -/
inductive PollResult (α : Type) where
  | Ready (a : α)
  | Pending
deriving DecidableEq, Repr

/-- Model of `impl Future for ResponsePromise::poll` on a cell whose lock was
acquired: a set response is taken (the cell is emptied) and returned ready;
otherwise the waker is stored and the poll is pending. -/
def response_promise_poll (cell : Option PromiseResult) :
    PollResult PromiseResult × Option PromiseResult :=
  match cell with
  | some r => (.Ready r, none)
  | none => (.Pending, none)

/-! ## Command-response listener helper (src/client/src/listener.rs) -/

/-- One iteration of `listen_for_responses` (listener.rs lines 29-52): a
receive error is logged and skipped, a frame that fails classification is
logged and skipped, and a classified message is handed to the response
handler (whose effect on its state is abstract). -/
def listen_for_responses_step {σ : Type}
    (handler : σ → ProcessedMessage → σ) (st : σ) (msg : Except Unit Frame) :
    σ :=
  match msg with
  | .error _ => st
  | .ok frame =>
    match process_message frame with
    | .ok response => handler st response
    | .error _ => st

/-- The `listen_for_responses` loop over a finite trace of frames. -/
def listen_for_responses {σ : Type}
    (handler : σ → ProcessedMessage → σ) (st : σ)
    (msgs : List (Except Unit Frame)) : σ :=
  msgs.foldl (listen_for_responses_step handler) st

/-! ## Stream connection (src/client/src/stream_connection.rs) -/

/-- Model of `StreamDataMessage` (schema/messages.rs): a push frame carrying a
data-command name and an opaque payload. -/
structure StreamDataMessage where
  command : String
  data : JValue
deriving DecidableEq, Repr

/-- Model of `DataMessageFilter`. -/
inductive DataMessageFilter where
  | Always
  | Never
  | Command (cmd : String)
  | FieldValue (name : String) (value : JValue)
  | Custom (cbk : StreamDataMessage → Bool)
  | All (ops : List DataMessageFilter)
  | Any (ops : List DataMessageFilter)

mutual

/-- Model of `DataMessageFilter::test_message` together with its private
resolvers (stream_connection.rs lines 184-238). -/
def DataMessageFilter.test_message : DataMessageFilter → StreamDataMessage → Bool
  | .Always, _ => true
  | .Never, _ => false
  | .Command cmd, msg => msg.command = cmd
  | .All ops, msg => DataMessageFilter.test_all ops msg
  | .Any ops, msg => DataMessageFilter.test_any ops msg
  | .FieldValue name value, msg =>
    match msg.data with
    | .obj fields =>
      match objGet fields name with
      | some field_content => field_content = value
      | none => false
    | _ => false
  | .Custom cbk, msg => cbk msg

/-- Model of `resolve_all`: `ops.iter().all(...)`. -/
def DataMessageFilter.test_all : List DataMessageFilter → StreamDataMessage → Bool
  | [], _ => true
  | f :: fs, msg => f.test_message msg && DataMessageFilter.test_all fs msg

/-- Model of `resolve_any`: `ops.iter().any(...)`. -/
def DataMessageFilter.test_any : List DataMessageFilter → StreamDataMessage → Bool
  | [], _ => false
  | f :: fs, msg => f.test_message msg || DataMessageFilter.test_any fs msg

end

/-- Model of `XtbStreamConnectionError`. -/
inductive XtbStreamConnectionError where
  | CannotConnect (host : String)
  | CannotSend
  | SerializationFailed
  | InvalidArgumentsType
deriving DecidableEq, Repr

/-- Model of `BasicXtbStreamConnection::prepare_arguments`: the arguments must
be absent, a JSON object, or JSON `null`; anything else is
`InvalidArgumentsType`. -/
def prepare_arguments (arguments : Option JValue) :
    Except XtbStreamConnectionError (Option (List (String × JValue))) :=
  match arguments with
  | none => .ok none
  | some (.obj o) => .ok (some o)
  | some .null => .ok none
  | some _ => .error .InvalidArgumentsType

/-- Model of `BasicXtbStreamConnection::assemble_and_send`: serialize the
request struct (a `SubscribeRequest`/`UnsubscribeRequest` always serializes to
a JSON object, so that step is modelled as already done), check the arguments,
merge the argument fields into the request object, and write the frame to the
sink.  The sink is modelled as the list of JSON frames written so far and is
returned unchanged when the argument check fails. -/
def assemble_and_send (requestObj : List (String × JValue))
    (arguments : Option JValue) (sink : List JValue) :
    Except XtbStreamConnectionError Unit × List JValue :=
  match prepare_arguments arguments with
  | .error e => (.error e, sink)
  | .ok none => (.ok (), sink ++ [.obj requestObj])
  | .ok (some prepared_obj) => (.ok (), sink ++ [.obj (requestObj ++ prepared_obj)])

/-- Serialization of `SubscribeRequest` (schema/messages.rs): command plus the
stream session id. -/
def subscribeRequestObj (command session_id : String) : List (String × JValue) :=
  [("command", .str command), ("streamSessionId", .str session_id)]

/-- Serialization of `UnsubscribeRequest` (schema/messages.rs): the command
alone. -/
def unsubscribeRequestObj (command : String) : List (String × JValue) :=
  [("command", .str command)]

/-- Model of `BasicXtbStreamConnection::subscribe`. -/
def stream_connection_subscribe (session_id command : String)
    (arguments : Option JValue) (sink : List JValue) :
    Except XtbStreamConnectionError Unit × List JValue :=
  assemble_and_send (subscribeRequestObj command session_id) arguments sink

/-- Model of `BasicXtbStreamConnection::unsubscribe`. -/
def stream_connection_unsubscribe (command : String)
    (arguments : Option JValue) (sink : List JValue) :
    Except XtbStreamConnectionError Unit × List JValue :=
  assemble_and_send (unsubscribeRequestObj command) arguments sink

/-- One outcome of `broadcast::Receiver::recv` as seen by
`BasicMessageStream::next`: a delivered message, the lag error of a receiver
that fell behind the channel capacity, or the error of a permanently closed
channel. -/
inductive RecvResult where
  | ok (msg : StreamDataMessage)
  | lagged
  | closed
deriving DecidableEq, Repr

/-- Model of `impl MessageStream for BasicMessageStream::next`
(stream_connection.rs lines 286-296) over the finite trace of successive
`recv` outcomes: `while let Some(msg) = self.stream.recv().await.ok()` turns
ANY receive error (lag as well as closure) into loop exit; a received message
is returned when the filter accepts it and skipped otherwise. -/
def BasicMessageStream.next (filter : DataMessageFilter) :
    List RecvResult → Option StreamDataMessage
  | [] => none
  | .lagged :: _ => none
  | .closed :: _ => none
  | .ok msg :: rest =>
    if filter.test_message msg then some msg
    else BasicMessageStream.next filter rest

/-- Model of `DataStreamError`. -/
inductive DataStreamError where
  | CannotDeserializeValue
deriving DecidableEq, Repr

/-- Model of `DataStream::next` (client.rs lines 864-870), with the typed
decoding `from_value::<T>` of the payload supplied as a function. -/
def DataStream.next {T : Type} (dec : JValue → Option T)
    (filter : DataMessageFilter) (events : List RecvResult) :
    Except DataStreamError (Option T) :=
  match BasicMessageStream.next filter events with
  | some msg =>
    match dec msg.data with
    | some v => .ok (some v)
    | none => .error .CannotDeserializeValue
  | none => .ok none

/-! ## Stream manager (src/client/src/client.rs) -/

/-- A control frame handed to the stream connection sink by the manager. -/
inductive SentFrame where
  | sub (command : String)
  | unsub (command : String)
deriving DecidableEq, Repr

/-- Model of `StreamManagerState`: the `subscriptions` refcount table plus the
trace of control frames the connection wrote. -/
structure StreamManagerState where
  subscriptions : List (String × Nat)
  sent : List SentFrame
deriving DecidableEq, Repr

/-- Model of `*state.subscriptions.entry(key).or_default() += 1`. -/
def entryIncrement (subs : List (String × Nat)) (key : String) :
    List (String × Nat) :=
  match subs with
  | [] => [(key, 1)]
  | (k, n) :: rest =>
    if k = key then (k, n + 1) :: rest else (k, n) :: entryIncrement rest key

/-- Model of `entry(key).or_default()` followed by writing `n` back. -/
def entrySet (subs : List (String × Nat)) (key : String) (n : Nat) :
    List (String × Nat) :=
  match subs with
  | [] => [(key, n)]
  | (k, m) :: rest =>
    if k = key then (k, n) :: rest else (k, m) :: entrySet rest key n

/-- The refcount of a key as the unsubscribe path reads it:
`entry(key).or_default()` materializes 0 for an absent key. -/
def subscriptionCount (subs : List (String × Nat)) (key : String) : Nat :=
  (assocGet subs key).getD 0

/-- Model of `StreamManager::subscribe` (client.rs lines 778-792) restricted
to its effect on the shared state: a filtered view is created, the subscribe
frame is sent to the connection UNCONDITIONALLY (there is no refcount check
before the send), and then the key's refcount is incremented. -/
def StreamManager.subscribe (st : StreamManagerState)
    (subscribe_command subscription_key : String) : StreamManagerState :=
  { subscriptions := entryIncrement st.subscriptions subscription_key,
    sent := st.sent ++ [.sub subscribe_command] }

/-- Model of `StreamManager::unsubscribe` (client.rs lines 806-816):
materialize the entry (`or_default`), decrement only when it is positive, and
send the unsubscribe frame exactly when the resulting count is zero. -/
def StreamManager.unsubscribe (st : StreamManagerState)
    (subscription_key command : String) : StreamManagerState :=
  let cnt := subscriptionCount st.subscriptions subscription_key
  let cnt := if 0 < cnt then cnt - 1 else cnt
  let subs := entrySet st.subscriptions subscription_key cnt
  if cnt = 0 then
    { subscriptions := subs, sent := st.sent ++ [.unsub command] }
  else
    { subscriptions := subs, sent := st.sent }

/-- The number of subscribe frames for a command in a frame trace. -/
def subFrameCount (sent : List SentFrame) (command : String) : Nat :=
  (sent.filter (fun f => f = .sub command)).length

/-- The number of unsubscribe frames for a command in a frame trace. -/
def unsubFrameCount (sent : List SentFrame) (command : String) : Nat :=
  (sent.filter (fun f => f = .unsub command)).length

end Xtb

/-! ## Theorems -/

namespace Xtb

/-- Round trip of the 48 fixed error-code variants. -/
theorem fixed_roundtrip : ∀ c ∈ fixedErrorCodes,
    XtbErrorCode.from_str c.display = .ok c := by decide

set_option maxRecDepth 8000 in
/-- Round trip of the open `BE0dd` range, bounded form. -/
theorem other_roundtrip_lt100 : ∀ c < 100, ((20 ≤ c ∧ c ≤ 37) ∨ c = 99) →
    XtbErrorCode.from_str (XtbErrorCode.display (.OtherError c)) =
      .ok (.OtherError c) := by decide

/-- On any string with the `SE` prefix, `from_str` falls through the fixed
literals and the `BE0dd` alternation into `parse_se_error`. -/
theorem from_str_of_SE (s : String) (h : strStartsWith s "SE" = true) :
    XtbErrorCode.from_str s = parse_se_error s := by
  have hne : ∀ t : String, strStartsWith t "SE" = false → ¬ (s = t) := by
    intro t ht hst
    rw [hst, ht] at h
    exact Bool.noConfusion h
  unfold XtbErrorCode.from_str
  repeat rw [if_neg (hne _ (by decide))]
  rw [if_neg ?grp, if_pos h]
  case grp =>
    rintro (rfl|rfl|rfl|rfl|rfl|rfl|rfl|rfl|rfl|rfl|rfl|rfl|rfl|rfl|rfl|rfl|rfl|rfl|rfl) <;>
      exact absurd h (by decide)

/-- The rendering of an `SEddd` code starts with `SE`. -/
theorem se_startsWith (c : Nat) :
    strStartsWith ("SE" ++ pad3 c) "SE" = true := by
  have hdata : ("SE" ++ pad3 c).toList = 'S' :: 'E' :: (pad3 c).toList := by
    show (("SE" : String) ++ pad3 c).data = 'S' :: 'E' :: (pad3 c).data
    rw [String.data_append]
    rfl
  simp [strStartsWith, hdata, List.isPrefixOf]

set_option maxRecDepth 100000 in
set_option maxHeartbeats 1000000 in
/-- The `SEddd` parser inverts the `SEddd` renderer, bounded form. -/
theorem se_parse_lt1000 : ∀ c < 1000,
    parse_se_error ("SE" ++ pad3 c) = .ok (.InternalServerError c) := by decide

/-- Round trip of the open `SEddd` range, bounded form. -/
theorem se_roundtrip_lt1000 : ∀ c < 1000,
    XtbErrorCode.from_str (XtbErrorCode.display (.InternalServerError c)) =
      .ok (.InternalServerError c) := by
  intro c hc
  rw [show XtbErrorCode.display (.InternalServerError c) = "SE" ++ pad3 c
      from rfl,
    from_str_of_SE _ (se_startsWith c)]
  exact se_parse_lt1000 c hc

/-- Any string whose length is not 5 falls through every branch of
`from_str` into `UnsupportedErrorCode`. -/
theorem from_str_wrong_length : ∀ s : String, s.length ≠ 5 →
    XtbErrorCode.from_str s = .error (.UnsupportedErrorCode s) := by
  intro s h
  have hne : ∀ t : String, t.length = 5 → ¬ (s = t) :=
    fun t ht hst => h (by rw [hst, ht])
  unfold XtbErrorCode.from_str
  repeat rw [if_neg (hne _ (by decide))]
  rw [if_neg ?grp]
  case grp =>
    rintro (rfl|rfl|rfl|rfl|rfl|rfl|rfl|rfl|rfl|rfl|rfl|rfl|rfl|rfl|rfl|rfl|rfl|rfl|rfl) <;>
      exact h (by decide)
  by_cases hse : strStartsWith s "SE" = true
  · rw [if_pos hse]
    unfold parse_se_error
    rw [if_pos (Or.inr h)]
  · rw [if_neg hse]

/-- C5: every fixed `XtbErrorCode` variant parses back from its `Display`
rendering; the open ranges `BE020`-`BE037`, `BE099` and `SE000`-`SE999`
round-trip their embedded numeric value through render-then-parse; and
`"BE100"`, `"BEA20"` and every wrong-length string are rejected by `from_str`
with `UnsupportedErrorCode` (a value, never a panic). -/
theorem C5_error_code_roundtrip :
    (∀ c ∈ fixedErrorCodes, XtbErrorCode.from_str c.display = .ok c) ∧
    (∀ c : Nat, ((20 ≤ c ∧ c ≤ 37) ∨ c = 99) →
      XtbErrorCode.from_str (XtbErrorCode.display (.OtherError c)) =
        .ok (.OtherError c)) ∧
    (∀ c : Nat, c ≤ 999 →
      XtbErrorCode.from_str (XtbErrorCode.display (.InternalServerError c)) =
        .ok (.InternalServerError c)) ∧
    XtbErrorCode.from_str "BE100" = .error (.UnsupportedErrorCode "BE100") ∧
    XtbErrorCode.from_str "BEA20" = .error (.UnsupportedErrorCode "BEA20") ∧
    (∀ s : String, s.length ≠ 5 →
      XtbErrorCode.from_str s = .error (.UnsupportedErrorCode s)) := by
  refine ⟨fixed_roundtrip, ?_, ?_, by decide, by decide, from_str_wrong_length⟩
  · intro c hc
    exact other_roundtrip_lt100 c (by omega) hc
  · intro c hc
    exact se_roundtrip_lt1000 c (by omega)

/-- C5 witness: the round-trip theorem applied at concrete codes and the
rejection clause at a concrete four-character string. -/
theorem C5_error_code_roundtrip_witness :
    XtbErrorCode.from_str (XtbErrorCode.display .BE001) = .ok .BE001 ∧
    XtbErrorCode.from_str (XtbErrorCode.display (.OtherError 20)) =
      .ok (.OtherError 20) ∧
    XtbErrorCode.from_str (XtbErrorCode.display (.InternalServerError 999)) =
      .ok (.InternalServerError 999) ∧
    XtbErrorCode.from_str "BE01" = .error (.UnsupportedErrorCode "BE01") :=
  ⟨C5_error_code_roundtrip.1 .BE001 (by decide),
   C5_error_code_roundtrip.2.1 20 (by decide),
   C5_error_code_roundtrip.2.2.1 999 (by decide),
   C5_error_code_roundtrip.2.2.2.2.2 "BE01" (by decide)⟩

end Xtb

namespace Xtb

/-- `test_all` is the conjunction over the member filters. -/
theorem test_all_iff (ops : List DataMessageFilter) (msg : StreamDataMessage) :
    DataMessageFilter.test_all ops msg = true ↔
      ∀ f ∈ ops, f.test_message msg = true := by
  induction ops with
  | nil => simp [DataMessageFilter.test_all]
  | cons f fs ih => simp [DataMessageFilter.test_all, ih]

/-- `test_any` is the disjunction over the member filters. -/
theorem test_any_iff (ops : List DataMessageFilter) (msg : StreamDataMessage) :
    DataMessageFilter.test_any ops msg = true ↔
      ∃ f ∈ ops, f.test_message msg = true := by
  induction ops with
  | nil => simp [DataMessageFilter.test_any]
  | cons f fs ih => simp [DataMessageFilter.test_any, ih]

/-- C7: `test_message` is a pure predicate with `Always` true everywhere,
`Never` false everywhere, `Command name` true exactly on messages with that
command, `FieldValue` true exactly when the payload is a JSON object holding
the named key with the equal value (false on other values and on non-object
payloads), `All list` the conjunction of its members (so `All []` accepts
everything), and `Any list` the disjunction (so `Any []` accepts nothing). -/
theorem C7_filter_semantics :
    (∀ msg, DataMessageFilter.test_message .Always msg = true) ∧
    (∀ msg, DataMessageFilter.test_message .Never msg = false) ∧
    (∀ name msg, DataMessageFilter.test_message (.Command name) msg = true ↔
      msg.command = name) ∧
    (∀ name value msg,
      DataMessageFilter.test_message (.FieldValue name value) msg = true ↔
        ∃ fields, msg.data = .obj fields ∧ objGet fields name = some value) ∧
    (∀ ops msg, DataMessageFilter.test_message (.All ops) msg = true ↔
      ∀ f ∈ ops, f.test_message msg = true) ∧
    (∀ msg, DataMessageFilter.test_message (.All []) msg = true) ∧
    (∀ ops msg, DataMessageFilter.test_message (.Any ops) msg = true ↔
      ∃ f ∈ ops, f.test_message msg = true) ∧
    (∀ msg, DataMessageFilter.test_message (.Any []) msg = false) := by
  refine ⟨?_, ?_, ?_, ?_, ?_, ?_, ?_, ?_⟩
  · intro msg; simp [DataMessageFilter.test_message]
  · intro msg; simp [DataMessageFilter.test_message]
  · intro name msg; simp [DataMessageFilter.test_message]
  · intro name value msg
    obtain ⟨cmd, data⟩ := msg
    cases data <;> simp [DataMessageFilter.test_message]
    case obj fields =>
      cases hg : objGet fields name <;> simp [hg]
  · intro ops msg; simp [DataMessageFilter.test_message, test_all_iff]
  · intro msg; simp [DataMessageFilter.test_message, DataMessageFilter.test_all]
  · intro ops msg; simp [DataMessageFilter.test_message, test_any_iff]
  · intro msg; simp [DataMessageFilter.test_message, DataMessageFilter.test_any]

/-- C7 witness: the filter semantics applied at concrete filters and
messages. -/
theorem C7_filter_semantics_witness :
    DataMessageFilter.test_message (.FieldValue "symbol" (.str "EURUSD"))
      ⟨"tickPrices", .obj [("symbol", .str "EURUSD")]⟩ = true ∧
    DataMessageFilter.test_message (.Command "candle")
      ⟨"candle", .null⟩ = true ∧
    DataMessageFilter.test_message (.All []) ⟨"c", .null⟩ = true ∧
    DataMessageFilter.test_message (.Any []) ⟨"c", .null⟩ = false :=
  ⟨(C7_filter_semantics.2.2.2.1 "symbol" (.str "EURUSD") _).mpr
      ⟨[("symbol", .str "EURUSD")], rfl, rfl⟩,
   (C7_filter_semantics.2.2.1 "candle" _).mpr rfl,
   C7_filter_semantics.2.2.2.2.2.1 _,
   C7_filter_semantics.2.2.2.2.2.2.2 _⟩

/-- `true` exactly on the argument shapes `prepare_arguments` accepts besides
absence: a JSON object or JSON null. -/
def argumentsAccepted : JValue → Bool
  | .obj _ => true
  | .null => true
  | _ => false

/-- C9: a `subscribe`/`unsubscribe` call whose arguments are `Some v` with `v`
neither a JSON object nor JSON null fails with `InvalidArgumentsType` and
writes nothing to the socket (the sink is unchanged, the check precedes the
send); absent arguments, `Some Null` and `Some Object` are accepted. -/
theorem C9_invalid_arguments :
    (∀ v : JValue, argumentsAccepted v = false →
      ∀ sid cmd sink,
        stream_connection_subscribe sid cmd (some v) sink =
          (.error .InvalidArgumentsType, sink) ∧
        stream_connection_unsubscribe cmd (some v) sink =
          (.error .InvalidArgumentsType, sink)) ∧
    (∀ sid cmd sink,
      (stream_connection_subscribe sid cmd none sink).1 = .ok () ∧
      (stream_connection_subscribe sid cmd (some .null) sink).1 = .ok () ∧
      (∀ o, (stream_connection_subscribe sid cmd (some (.obj o)) sink).1 = .ok ()) ∧
      (stream_connection_unsubscribe cmd none sink).1 = .ok () ∧
      (stream_connection_unsubscribe cmd (some .null) sink).1 = .ok () ∧
      (∀ o, (stream_connection_unsubscribe cmd (some (.obj o)) sink).1 = .ok ())) := by
  constructor
  · intro v hv sid cmd sink
    cases v <;>
      simp_all [stream_connection_subscribe, stream_connection_unsubscribe,
        assemble_and_send, prepare_arguments, argumentsAccepted]
  · intro sid cmd sink
    exact ⟨rfl, rfl, fun o => rfl, rfl, rfl, fun o => rfl⟩

/-- C9 witness: a string argument is rejected without writing a frame, with
an initially empty sink. -/
theorem C9_invalid_arguments_witness :
    stream_connection_subscribe "sess" "getCandles" (some (.str "EURUSD")) [] =
      (.error .InvalidArgumentsType, []) ∧
    (stream_connection_subscribe "sess" "getCandles" none []).1 = .ok () :=
  ⟨(C9_invalid_arguments.1 (.str "EURUSD") rfl "sess" "getCandles" []).1,
   (C9_invalid_arguments.2 "sess" "getCandles" []).1⟩

end Xtb

namespace Xtb

/-- Looking up the key just inserted finds the inserted value. -/
theorem assocGet_assocInsert_self {α : Type} (t : List (String × α))
    (k : String) (v : α) : assocGet (assocInsert t k v) k = some v := by
  induction t with
  | nil => simp [assocInsert, assocGet]
  | cons kv rest ih =>
    obtain ⟨k₀, v₀⟩ := kv
    by_cases h : k₀ = k <;> simp [assocInsert, assocGet, h, ih]

/-- The state of a freshly created connection (`BasicXtbConnection::new`):
tag counter at zero, empty correlation table, no promise cells. -/
def connNew : BasicXtbConnection := ⟨⟨0⟩, [], []⟩

/-- C1 counterexample: on a fresh connection, a `send_command` whose transport
write fails returns the error synchronously, but the entry for the freshly
generated tag `"message_1"` REMAINS in `promise_state_by_tag` (the insertion
at connection.rs line 162 precedes the write at line 163 and is not rolled
back), contradicting the claim that the table is left unchanged. -/
theorem C1_counterexample :
    (send_command connNew .writeFail).1 = .error .CannotSendRequest ∧
    (send_command connNew .writeFail).2.promise_state_by_tag =
      [("message_1", 0)] ∧
    assocGet (send_command connNew .writeFail).2.promise_state_by_tag
      "message_1" = some 0 := by
  refine ⟨rfl, ?_, ?_⟩ <;> decide

/-- C1 amended: a serialization failure fails the call synchronously and
leaves the correlation table unchanged; a transport-write failure fails the
call synchronously but leaves the freshly inserted entry for the new tag
dangling in the table. -/
theorem C1_send_failure : ∀ conn : BasicXtbConnection,
    ((send_command conn .serializeFail).1 = .error .SerializationError ∧
     (send_command conn .serializeFail).2.promise_state_by_tag =
       conn.promise_state_by_tag) ∧
    ((send_command conn .writeFail).1 = .error .CannotSendRequest ∧
     (send_command conn .writeFail).2.promise_state_by_tag =
       assocInsert conn.promise_state_by_tag
         ("message_" ++ toString (conn.tag_maker.counter + 1))
         conn.cells.length ∧
     assocGet (send_command conn .writeFail).2.promise_state_by_tag
       ("message_" ++ toString (conn.tag_maker.counter + 1)) =
       some conn.cells.length) := by
  intro conn
  refine ⟨⟨rfl, rfl⟩, rfl, rfl, ?_⟩
  simp [send_command, TagMaker.next, assocGet_assocInsert_self]

/-- C1 witness: the amended send-failure behavior on a fresh connection —
serialization failure leaves the table empty, transport-write failure leaves
the dangling entry for tag "message_1". -/
theorem C1_send_failure_witness :
    (send_command connNew .serializeFail).2.promise_state_by_tag = [] ∧
    assocGet (send_command connNew .writeFail).2.promise_state_by_tag
      "message_1" = some 0 :=
  ⟨(C1_send_failure connNew).1.2, (C1_send_failure connNew).2.2.2⟩

/-- Incrementing a key raises exactly that key's refcount by one. -/
theorem subscriptionCount_entryIncrement_self (subs : List (String × Nat))
    (key : String) :
    subscriptionCount (entryIncrement subs key) key =
      subscriptionCount subs key + 1 := by
  induction subs with
  | nil => simp [entryIncrement, subscriptionCount, assocGet]
  | cons kv rest ih =>
    obtain ⟨k, n⟩ := kv
    by_cases h : k = key
    · simp [entryIncrement, subscriptionCount, assocGet, h]
    · simpa [entryIncrement, subscriptionCount, assocGet, h] using ih

/-- Writing a count back stores exactly that count at the key. -/
theorem subscriptionCount_entrySet_self (subs : List (String × Nat))
    (key : String) (n : Nat) :
    subscriptionCount (entrySet subs key n) key = n := by
  induction subs with
  | nil => simp [entrySet, subscriptionCount, assocGet]
  | cons kv rest ih =>
    obtain ⟨k, m⟩ := kv
    by_cases h : k = key
    · simp [entrySet, subscriptionCount, assocGet, h]
    · simpa [entrySet, subscriptionCount, assocGet, h] using ih

/-- `entrySet` materializes the binding it writes. -/
theorem assocGet_entrySet_self (subs : List (String × Nat))
    (key : String) (n : Nat) :
    assocGet (entrySet subs key n) key = some n := by
  induction subs with
  | nil => simp [entrySet, assocGet]
  | cons kv rest ih =>
    obtain ⟨k, m⟩ := kv
    by_cases h : k = key <;> simp [entrySet, assocGet, h, ih]

/-- `unsubscribe` written as a function of the key's current refcount:
the count becomes its truncated predecessor, and the unsubscribe frame is
sent exactly when that predecessor is zero. -/
theorem unsubscribe_of_count (st : StreamManagerState) (key cmd : String)
    (n : Nat) (h : subscriptionCount st.subscriptions key = n) :
    StreamManager.unsubscribe st key cmd =
      if n - 1 = 0 then
        ⟨entrySet st.subscriptions key (n - 1), st.sent ++ [.unsub cmd]⟩
      else ⟨entrySet st.subscriptions key (n - 1), st.sent⟩ := by
  cases n with
  | zero => simp [StreamManager.unsubscribe, h]
  | succ m =>
    by_cases hm : m = 0 <;> simp [StreamManager.unsubscribe, h, hm]

/-- The state of a freshly created stream manager: empty refcount table, no
frames written. -/
def mgrNew : StreamManagerState := ⟨[], []⟩

/-- C2 counterexample: two `StreamManager::subscribe` calls with the same
subscription key send TWO subscribe frames to the server (the send at
client.rs line 789 is unconditional, there is no refcount check before it),
contradicting the claim that exactly one subscribe frame is sent. -/
theorem C2_counterexample :
    subFrameCount (StreamManager.subscribe
        (StreamManager.subscribe mgrNew "getCandles" "candle.EURUSD")
        "getCandles" "candle.EURUSD").sent "getCandles" = 2 := by decide

/-- C2 amended: every `subscribe` call sends a subscribe frame (even for an
already-known key) and increments the key's refcount; for the two matching
drops, no unsubscribe frame is sent at the first drop (refcount 2 to 1) and
exactly one unsubscribe frame is sent at the second drop (refcount 1 to 0). -/
theorem C2_subscribe_refcount : ∀ (st : StreamManagerState)
    (cmd ucmd key : String),
    subscriptionCount st.subscriptions key = 0 →
    ((StreamManager.subscribe (StreamManager.subscribe st cmd key) cmd key).sent
       = st.sent ++ [.sub cmd, .sub cmd]) ∧
    (subscriptionCount (StreamManager.subscribe
        (StreamManager.subscribe st cmd key) cmd key).subscriptions key = 2) ∧
    ((StreamManager.unsubscribe (StreamManager.subscribe
        (StreamManager.subscribe st cmd key) cmd key) key ucmd).sent
       = st.sent ++ [.sub cmd, .sub cmd]) ∧
    (subscriptionCount (StreamManager.unsubscribe (StreamManager.subscribe
        (StreamManager.subscribe st cmd key) cmd key) key ucmd).subscriptions
        key = 1) ∧
    ((StreamManager.unsubscribe (StreamManager.unsubscribe
        (StreamManager.subscribe (StreamManager.subscribe st cmd key) cmd key)
        key ucmd) key ucmd).sent
       = st.sent ++ [.sub cmd, .sub cmd, .unsub ucmd]) ∧
    (subscriptionCount (StreamManager.unsubscribe (StreamManager.unsubscribe
        (StreamManager.subscribe (StreamManager.subscribe st cmd key) cmd key)
        key ucmd) key ucmd).subscriptions key = 0) := by
  intro st cmd ucmd key h0
  set s2 := StreamManager.subscribe (StreamManager.subscribe st cmd key) cmd key
    with hs2
  have hs2sent : s2.sent = st.sent ++ [.sub cmd, .sub cmd] := by
    rw [hs2]; simp [StreamManager.subscribe]
  have h2 : subscriptionCount s2.subscriptions key = 2 := by
    rw [hs2]
    simp [StreamManager.subscribe, subscriptionCount_entryIncrement_self, h0]
  have hu1 : StreamManager.unsubscribe s2 key ucmd =
      ⟨entrySet s2.subscriptions key 1, s2.sent⟩ := by
    rw [unsubscribe_of_count s2 key ucmd 2 h2]; simp
  have hu1cnt : subscriptionCount
      (StreamManager.unsubscribe s2 key ucmd).subscriptions key = 1 := by
    rw [hu1]; simp [subscriptionCount_entrySet_self]
  have hu2 : StreamManager.unsubscribe (StreamManager.unsubscribe s2 key ucmd)
      key ucmd =
      ⟨entrySet (StreamManager.unsubscribe s2 key ucmd).subscriptions key 0,
       (StreamManager.unsubscribe s2 key ucmd).sent ++ [.unsub ucmd]⟩ := by
    rw [unsubscribe_of_count (StreamManager.unsubscribe s2 key ucmd) key ucmd 1
      hu1cnt]
    simp
  refine ⟨hs2sent, h2, by rw [hu1, hs2sent], hu1cnt, ?_, ?_⟩
  · rw [hu2, hu1, hs2sent]; simp
  · rw [hu2]; simp [subscriptionCount_entrySet_self]

/-- C2 witness: the amended refcount behavior on a fresh manager. -/
theorem C2_subscribe_refcount_witness :
    ((StreamManager.subscribe (StreamManager.subscribe mgrNew "getCandles"
        "candle.EURUSD") "getCandles" "candle.EURUSD").sent
      = [.sub "getCandles", .sub "getCandles"]) ∧
    ((StreamManager.unsubscribe (StreamManager.unsubscribe
        (StreamManager.subscribe (StreamManager.subscribe mgrNew "getCandles"
          "candle.EURUSD") "getCandles" "candle.EURUSD")
        "candle.EURUSD" "stopCandles") "candle.EURUSD" "stopCandles").sent
      = [.sub "getCandles", .sub "getCandles", .unsub "stopCandles"]) := by
  have h := C2_subscribe_refcount mgrNew "getCandles" "stopCandles"
    "candle.EURUSD" rfl
  exact ⟨h.1, h.2.2.2.2.1⟩

/-- C10: `unsubscribe` never underflows a refcount: the target key's count
after the call is the truncated predecessor of its count before; and calling
it with an absent or zero-count key keeps the count at zero, materializes a
zero entry in the table, and still sends the unsubscribe frame. -/
theorem C10_no_underflow : ∀ (st : StreamManagerState) (key cmd : String),
    (subscriptionCount (StreamManager.unsubscribe st key cmd).subscriptions
        key = subscriptionCount st.subscriptions key - 1) ∧
    (subscriptionCount st.subscriptions key = 0 →
      subscriptionCount (StreamManager.unsubscribe st key cmd).subscriptions
          key = 0 ∧
      assocGet (StreamManager.unsubscribe st key cmd).subscriptions key =
        some 0 ∧
      (StreamManager.unsubscribe st key cmd).sent =
        st.sent ++ [.unsub cmd]) := by
  intro st key cmd
  constructor
  · cases hc : subscriptionCount st.subscriptions key with
    | zero => simp [StreamManager.unsubscribe, hc, subscriptionCount_entrySet_self]
    | succ n =>
      by_cases hn : n = 0 <;>
        simp [StreamManager.unsubscribe, hc, hn, subscriptionCount_entrySet_self]
  · intro h0
    refine ⟨?_, ?_, ?_⟩ <;>
      simp [StreamManager.unsubscribe, h0, subscriptionCount_entrySet_self,
        assocGet_entrySet_self]

/-- C10 witness: unsubscribing a key absent from a fresh manager's table. -/
theorem C10_no_underflow_witness :
    subscriptionCount (StreamManager.unsubscribe mgrNew "candle.EURUSD"
        "stopCandles").subscriptions "candle.EURUSD" = 0 ∧
    (StreamManager.unsubscribe mgrNew "candle.EURUSD" "stopCandles").sent =
      [.unsub "stopCandles"] := by
  have h := (C10_no_underflow mgrNew "candle.EURUSD" "stopCandles").2 rfl
  exact ⟨h.1, h.2.2⟩

end Xtb

namespace Xtb

/-- A command-channel frame holding a well-formed success response that
carries the correlation tag `t`. -/
def taggedSuccessFrame (t : String) : Except Unit Frame :=
  .ok (.text (some (.obj [("status", .bool true), ("customTag", .str t)])))

/-- The envelope that `taggedSuccessFrame t` classifies to. -/
def taggedResponse (t : String) : Response := ⟨true, none, none, some t⟩

/-- Classification of the tagged success frame. -/
theorem process_taggedSuccessFrame (t : String) :
    Connection.process_message (taggedSuccessFrame t) =
      .ok (taggedResponse t) := rfl

/-- A listener step on a success frame whose tag is registered removes the
table entry and delivers the response into the registered cell. -/
theorem run_listener_step_registered (conn : BasicXtbConnection) (t : String)
    (idx : Nat) (h : assocGet conn.promise_state_by_tag t = some idx) :
    run_listener_step conn (taggedSuccessFrame t) =
      { conn with
        promise_state_by_tag := assocRemove conn.promise_state_by_tag t,
        cells := set_response conn.cells idx (.ok (taggedResponse t)) } := by
  simp [run_listener_step, process_taggedSuccessFrame, taggedResponse, h,
    Except.mapError]

/-- A listener step on a success frame whose tag is not registered leaves the
connection state unchanged. -/
theorem run_listener_step_unregistered (conn : BasicXtbConnection) (t : String)
    (h : assocGet conn.promise_state_by_tag t = none) :
    run_listener_step conn (taggedSuccessFrame t) = conn := by
  simp [run_listener_step, process_taggedSuccessFrame, taggedResponse, h]

/-- C3: with two pending requests registered under distinct tags A and B,
processing the responses in order B then A resolves each cell with exactly
the response carrying its own tag (never swapped) and removes both table
entries; polling a fulfilled cell yields its own response; and a tagged
response with no registered entry is discarded without touching the state. -/
theorem C3_correlation_by_tag : ∀ A B : String, A ≠ B →
    (run_listener ⟨⟨2⟩, [(A, 0), (B, 1)], [none, none]⟩
        [taggedSuccessFrame B, taggedSuccessFrame A] =
      ⟨⟨2⟩, [],
       [some (.ok (taggedResponse A)), some (.ok (taggedResponse B))]⟩) ∧
    (response_promise_poll (some (.ok (taggedResponse A))) =
      (.Ready (.ok (taggedResponse A)), none)) ∧
    (∀ (conn : BasicXtbConnection) (C : String),
      assocGet conn.promise_state_by_tag C = none →
      run_listener_step conn (taggedSuccessFrame C) = conn) := by
  intro A B hAB
  refine ⟨?_, rfl, fun conn C h => run_listener_step_unregistered conn C h⟩
  have hgB : assocGet [(A, (0 : Nat)), (B, 1)] B = some 1 := by
    simp [assocGet, hAB]
  have step1 : run_listener_step ⟨⟨2⟩, [(A, 0), (B, 1)], [none, none]⟩
      (taggedSuccessFrame B) =
      ⟨⟨2⟩, [(A, 0)], [none, some (.ok (taggedResponse B))]⟩ := by
    rw [run_listener_step_registered _ B 1 hgB]
    simp [assocRemove, hAB, set_response, List.set]
  have hgA : assocGet [(A, (0 : Nat))] A = some 0 := by simp [assocGet]
  have step2 : run_listener_step
      ⟨⟨2⟩, [(A, 0)], [none, some (.ok (taggedResponse B))]⟩
      (taggedSuccessFrame A) =
      ⟨⟨2⟩, [],
       [some (.ok (taggedResponse A)), some (.ok (taggedResponse B))]⟩ := by
    rw [run_listener_step_registered _ A 0 hgA]
    simp [assocRemove, set_response, List.set]
  calc run_listener ⟨⟨2⟩, [(A, 0), (B, 1)], [none, none]⟩
        [taggedSuccessFrame B, taggedSuccessFrame A]
      = run_listener_step (run_listener_step
          ⟨⟨2⟩, [(A, 0), (B, 1)], [none, none]⟩ (taggedSuccessFrame B))
          (taggedSuccessFrame A) := rfl
    _ = ⟨⟨2⟩, [],
          [some (.ok (taggedResponse A)), some (.ok (taggedResponse B))]⟩ := by
        rw [step1, step2]

/-- C3 witness: the correlation theorem at tags "a" and "b", and the discard
clause on a fresh connection with the unregistered tag "c". -/
theorem C3_correlation_by_tag_witness :
    run_listener ⟨⟨2⟩, [("a", 0), ("b", 1)], [none, none]⟩
        [taggedSuccessFrame "b", taggedSuccessFrame "a"] =
      ⟨⟨2⟩, [],
       [some (.ok (taggedResponse "a")), some (.ok (taggedResponse "b"))]⟩ ∧
    run_listener_step connNew (taggedSuccessFrame "c") = connNew := by
  have h := C3_correlation_by_tag "a" "b" (by decide)
  exact ⟨h.1, h.2.2 connNew "c" rfl⟩

/-- A text frame whose content is not valid JSON. -/
def badJsonFrame : Except Unit Frame := .ok (.text none)

/-- A well-formed success frame that carries no correlation tag. -/
def taglessFrame : Except Unit Frame :=
  .ok (.text (some (.obj [("status", .bool true)])))

/-- C6: the reader loop survives every bad frame: a receive error, a non-text
frame, a non-JSON text frame and a tagless frame each leave the state
unchanged and processing continues with the remaining frames (the loop is a
total fold, a bad frame never terminates it); in particular a well-formed
tagged frame arriving after a non-JSON frame is still delivered to its
registered correlation entry. -/
theorem C6_reader_skips_bad_frames :
    (∀ conn, run_listener_step conn (.error ()) = conn) ∧
    (∀ conn, run_listener_step conn (.ok .nonText) = conn) ∧
    (∀ conn, run_listener_step conn badJsonFrame = conn) ∧
    (∀ conn, run_listener_step conn taglessFrame = conn) ∧
    (∀ conn msgs,
      run_listener conn (badJsonFrame :: msgs) = run_listener conn msgs) ∧
    (∀ (σ : Type) (handler : σ → ProcessedMessage → σ) (st : σ),
      listen_for_responses_step handler st badJsonFrame = st ∧
      listen_for_responses_step handler st (.error ()) = st ∧
      listen_for_responses_step handler st (.ok .nonText) = st) ∧
    (∀ (σ : Type) (handler : σ → ProcessedMessage → σ) (st : σ) msgs,
      listen_for_responses handler st (badJsonFrame :: msgs) =
        listen_for_responses handler st msgs) ∧
    (∀ (conn : BasicXtbConnection) (A : String) (idx : Nat),
      assocGet conn.promise_state_by_tag A = some idx →
      run_listener conn [badJsonFrame, taggedSuccessFrame A] =
        { conn with
          promise_state_by_tag := assocRemove conn.promise_state_by_tag A,
          cells := set_response conn.cells idx (.ok (taggedResponse A)) }) := by
  refine ⟨fun conn => rfl, fun conn => rfl, fun conn => rfl, fun conn => rfl,
    fun conn msgs => rfl, fun σ handler st => ⟨rfl, rfl, rfl⟩,
    fun σ handler st msgs => rfl, ?_⟩
  intro conn A idx h
  show run_listener_step (run_listener_step conn badJsonFrame)
      (taggedSuccessFrame A) = _
  rw [show run_listener_step conn badJsonFrame = conn from rfl,
    run_listener_step_registered conn A idx h]

/-- C6 witness: a non-JSON frame followed by the tagged frame "a" on a
connection with "a" registered still delivers into cell 0. -/
theorem C6_reader_skips_bad_frames_witness :
    run_listener ⟨⟨1⟩, [("a", 0)], [none]⟩
        [badJsonFrame, taggedSuccessFrame "a"] =
      ⟨⟨1⟩, [], [some (.ok (taggedResponse "a"))]⟩ := by
  have h := C6_reader_skips_bad_frames.2.2.2.2.2.2.2 ⟨⟨1⟩, [("a", 0)], [none]⟩
    "a" 0 rfl
  simpa [assocRemove, set_response, List.set] using h

end Xtb

namespace Xtb

/-- C4 counterexample: the JSON object with `status` equal to false and
nothing else is classified to `DeserializationError`, not to a Failure
envelope — the required `errorCode` field is missing, so the claim's
"`status` equal to false returns a Failure envelope" fails at this input. -/
theorem C4_counterexample :
    process_message (.text (some (.obj [("status", .bool false)]))) =
      .error .DeserializationError := rfl

/-- C4 amended: `process_message` classifies by the boolean `status` field
read first: a non-text frame fails with `ReceivedInvalidData`, non-JSON text
with `DeserializationError`, a non-object value or one without `status` with
`MalformedResponse`, a non-boolean `status` with `MalformedResponse`; with
`status` true it returns the Success envelope PROVIDED the object
deserializes into the `Response` shape (otherwise `DeserializationError`),
and with `status` false the Failure envelope PROVIDED it deserializes into
the `ErrorResponse` shape, which requires a parsable `errorCode` string
(otherwise `DeserializationError`). -/
theorem C4_classification :
    (process_message .nonText = .error .ReceivedInvalidData) ∧
    (process_message (.text none) = .error .DeserializationError) ∧
    (∀ v : JValue, process_message (.text (some v)) = process_message_value v) ∧
    (∀ v : JValue, (∀ fields, v ≠ .obj fields) →
      process_message_value v = .error (.MalformedResponse "Value is not object")) ∧
    (∀ fields, objGet fields "status" = none →
      process_message_value (.obj fields) =
        .error (.MalformedResponse "The response status field is missing")) ∧
    (∀ fields sv, objGet fields "status" = some sv → (∀ b, sv ≠ .bool b) →
      process_message_value (.obj fields) =
        .error (.MalformedResponse "The response status field is not boolean")) ∧
    (∀ fields r, objGet fields "status" = some (.bool true) →
      deserializeResponse (.obj fields) = some r →
      process_message_value (.obj fields) = .ok (.Response r)) ∧
    (∀ fields, objGet fields "status" = some (.bool true) →
      deserializeResponse (.obj fields) = none →
      process_message_value (.obj fields) = .error .DeserializationError) ∧
    (∀ fields e, objGet fields "status" = some (.bool false) →
      deserializeErrorResponse (.obj fields) = some e →
      process_message_value (.obj fields) = .ok (.ErrorResponse e)) ∧
    (∀ fields, objGet fields "status" = some (.bool false) →
      deserializeErrorResponse (.obj fields) = none →
      process_message_value (.obj fields) = .error .DeserializationError) := by
  refine ⟨rfl, rfl, fun v => rfl, ?_, ?_, ?_, ?_, ?_, ?_, ?_⟩
  · intro v hv
    cases v
    case obj fields => exact absurd rfl (hv fields)
    all_goals rfl
  · intro fields h
    simp [process_message_value, h]
  · intro fields sv hsv hnb
    cases sv
    case bool b => exact absurd rfl (hnb b)
    all_goals simp [process_message_value, hsv]
  · intro fields r hs hd
    simp [process_message_value, hs, hd]
  · intro fields hs hd
    simp [process_message_value, hs, hd]
  · intro fields e hs hd
    simp [process_message_value, hs, hd]
  · intro fields hs hd
    simp [process_message_value, hs, hd]

/-- C4 witness: the classification applied at concrete frames — a success
with a tag, a failure with a parsable error code, and each error case. -/
theorem C4_classification_witness :
    process_message_value
        (.obj [("status", .bool true), ("customTag", .str "myTag")]) =
      .ok (.Response ⟨true, none, none, some "myTag"⟩) ∧
    process_message_value
        (.obj [("status", .bool false), ("errorCode", .str "BE001")]) =
      .ok (.ErrorResponse ⟨false, .BE001, none, none⟩) ∧
    process_message_value (.str "x") =
      .error (.MalformedResponse "Value is not object") ∧
    process_message_value (.obj [("errorCode", .str "BE001")]) =
      .error (.MalformedResponse "The response status field is missing") ∧
    process_message_value (.obj [("status", .num 1)]) =
      .error (.MalformedResponse "The response status field is not boolean") := by
  refine ⟨C4_classification.2.2.2.2.2.2.1 _ ⟨true, none, none, some "myTag"⟩
      rfl (by decide),
    C4_classification.2.2.2.2.2.2.2.2.1 _ ⟨false, .BE001, none, none⟩
      rfl (by decide),
    C4_classification.2.2.2.1 _ (fun fields h => JValue.noConfusion h),
    C4_classification.2.2.2.2.1 _ rfl,
    C4_classification.2.2.2.2.2.1 _ (.num 1) rfl
      (fun b h => JValue.noConfusion h)⟩

/-- The messages delivered before the first receive error (or the end of the
trace): the only messages `BasicMessageStream::next` can ever inspect. -/
def messagesBeforeError : List RecvResult → List StreamDataMessage
  | [] => []
  | .ok m :: rest => m :: messagesBeforeError rest
  | .lagged :: _ => []
  | .closed :: _ => []

/-- C8 counterexample: a lagged receiver ends the stream: with the filter
`Always` and the receive trace "lag error, then a deliverable message",
`next` returns `None` although the channel is not closed (no `closed` event
occurs) and a filter-accepted message is still available — refuting "returns
None exactly when the underlying channel is permanently closed". -/
theorem C8_counterexample :
    BasicMessageStream.next .Always [.lagged, .ok ⟨"candle", .null⟩] = none ∧
    RecvResult.closed ∉ ([.lagged, .ok ⟨"candle", .null⟩] : List RecvResult) ∧
    DataMessageFilter.test_message .Always ⟨"candle", .null⟩ = true := by
  refine ⟨rfl, by decide, by simp [DataMessageFilter.test_message]⟩

/-- C8 amended: `next` skips every rejected message and returns the first
filter-accepted message among those received before the first receive error,
and returns `None` when no such message exists — the receive errors being
both the permanent closure of the channel and this receiver's lag; also,
`DataStream::next` built on it maps that end-of-stream to `Ok(None)`. -/
theorem C8_stream_next_semantics :
    (∀ (filter : DataMessageFilter) (events : List RecvResult),
      BasicMessageStream.next filter events =
        (messagesBeforeError events).find? (fun m => filter.test_message m)) ∧
    (∀ (filter : DataMessageFilter) (events : List RecvResult),
      BasicMessageStream.next filter events = none ↔
        ∀ m ∈ messagesBeforeError events, filter.test_message m = false) ∧
    (∀ (T : Type) (dec : JValue → Option T) (filter : DataMessageFilter)
      (events : List RecvResult),
      BasicMessageStream.next filter events = none →
      DataStream.next dec filter events = .ok none) := by
  have hfind : ∀ (filter : DataMessageFilter) (events : List RecvResult),
      BasicMessageStream.next filter events =
        (messagesBeforeError events).find? (fun m => filter.test_message m) := by
    intro filter events
    induction events with
    | nil => rfl
    | cons e rest ih =>
      cases e with
      | ok m =>
        by_cases hm : filter.test_message m = true
        · simp [BasicMessageStream.next, messagesBeforeError, List.find?, hm]
        · simp only [Bool.not_eq_true] at hm
          simp [BasicMessageStream.next, messagesBeforeError, List.find?, hm, ih]
      | lagged => rfl
      | closed => rfl
  refine ⟨hfind, ?_, ?_⟩
  · intro filter events
    rw [hfind]
    simp [List.find?_eq_none]
  · intro T dec filter events h
    simp [DataStream.next, h]

/-- C8 witness: the end-of-stream clause applied at a closed channel, and the
skip clause at a rejecting filter. -/
theorem C8_stream_next_semantics_witness :
    DataStream.next (fun v => some v) .Always ([.closed] : List RecvResult) =
      .ok none ∧
    BasicMessageStream.next .Never [.ok ⟨"c", .null⟩] = none := by
  refine ⟨C8_stream_next_semantics.2.2 JValue (fun v => some v) .Always
      [.closed] rfl, ?_⟩
  rw [C8_stream_next_semantics.1]
  simp [messagesBeforeError, List.find?, DataMessageFilter.test_message]

end Xtb
